import Mathlib

/-!
Shallow embedding of the repository `IRIS_dockerization`
(`src/python_utils/querymethods.py` and `src/python_utils/utils.py`).

The repository fetches patient no-show appointment records from an
InterSystems IRIS database through three access paths and feeds them to a
LightGBM inference pipeline after a fixed sequence of pandas column
transformations.

Modelling conventions:
* A pandas `DataFrame` is a `Frame`: a list of column names plus a list of
  rows, each row a list of `Value`s (positionally aligned with the columns).
* Cell values are modelled by `Value`: integers, strings, parsed datetimes,
  category-tagged strings, and NaN.
* Datetimes are modelled structurally (`DateTime` with the components the
  code reads through the pandas `.dt` accessor); string-to-datetime parsing
  is delegated to pandas and therefore the database already stores the
  parsed components.
* The database state `DB` is the list of stored appointment records, in the
  enumeration order shared by the three access paths (SQL scan order, global
  subscript order, and the order of the `DynamicSQL` result set): the claims
  speak of a fixed, consistent state exposing the same records to all three.
-/

set_option autoImplicit false

namespace IrisDocker

/-- Components of a timestamp as exposed by the pandas `.dt` accessor
(`year`, `month`, `day`, `dayofweek` with 0 = Monday .. 6 = Sunday, `hour`). -/
structure DateTime where
  year : Int
  month : Int
  day : Int
  dayofweek : Int
  hour : Int
deriving DecidableEq, Repr

/-- A DataFrame cell: integer, string, parsed datetime, categorical
(result of `astype("category")` on a string column), or NaN. -/
inductive Value where
  | int (n : Int)
  | str (s : String)
  | dt (d : DateTime)
  | cat (s : String)
  | nan
deriving DecidableEq, Repr

/-- One stored appointment record, with the 15 fields of the
`MockPackage.NoShowsAppointments` table. -/
structure Record where
  patientid : Int
  appointmentid : Int
  gender : String
  scheduledday : DateTime
  appointmentday : DateTime
  age : Int
  neighbourhood : String
  scholarship : Int
  hipertension : Int
  diabetes : Int
  alcoholism : Int
  handcap : Int
  sms_received : Int
  showed_up : Int
  date_diff : Int
deriving DecidableEq, Repr

/-- The database state: the appointment records, in the enumeration order
shared by the three access paths. -/
structure DB where
  records : List Record
deriving DecidableEq, Repr

/-- The column list written out identically in `iris_sql_query` and
`iris_global_query` (the physical column order of the table). -/
def sqlColumns : List String :=
  ["patientid", "appointmentid", "gender", "scheduledday",
   "appointmentday", "age", "neighbourhood", "scholarship",
   "hipertension", "diabetes", "alcoholism", "handcap",
   "sms_received", "showed_up", "date_diff"]

/-- A record as the positional row of the table (the tuple produced by the
SQL cursor, and the `$List` stored at a global subscript). -/
def Record.toRow (r : Record) : List Value :=
  [.int r.patientid, .int r.appointmentid, .str r.gender,
   .dt r.scheduledday, .dt r.appointmentday, .int r.age,
   .str r.neighbourhood, .int r.scholarship, .int r.hipertension,
   .int r.diabetes, .int r.alcoholism, .int r.handcap,
   .int r.sms_received, .int r.showed_up, .int r.date_diff]

/-- A record as the JSON object (`%ToJSON()` then `json.loads`) used by
`dynamic_sql_query`: an association of the 15 field names, in the table's
column order, to the field values. -/
def Record.toObj (r : Record) : List (String × Value) :=
  [("patientid", .int r.patientid), ("appointmentid", .int r.appointmentid),
   ("gender", .str r.gender), ("scheduledday", .dt r.scheduledday),
   ("appointmentday", .dt r.appointmentday), ("age", .int r.age),
   ("neighbourhood", .str r.neighbourhood), ("scholarship", .int r.scholarship),
   ("hipertension", .int r.hipertension), ("diabetes", .int r.diabetes),
   ("alcoholism", .int r.alcoholism), ("handcap", .int r.handcap),
   ("sms_received", .int r.sms_received), ("showed_up", .int r.showed_up),
   ("date_diff", .int r.date_diff)]

/-- A pandas DataFrame: named columns and positional rows. -/
structure Frame where
  cols : List String
  rows : List (List Value)
deriving DecidableEq, Repr

/-- `list.index(x)` / first position of a column name. -/
def idxOf (c : String) : List String → Option Nat
  | [] => none
  | x :: xs => if x = c then some 0 else (idxOf c xs).map (· + 1)

/-- The records the `WHERE age >= lower_age` condition keeps (shared
shorthand for statements about the three query functions). -/
def matchingRecords (db : DB) (lower_age : Int) : List Record :=
  db.records.filter (fun r => lower_age ≤ r.age)

/-- Key union in first-seen order: the columns `pd.DataFrame` infers from a
list of row dictionaries. -/
def unionKeys (objs : List (List (String × Value))) : List String :=
  objs.foldl (fun acc o =>
    acc ++ ((o.map Prod.fst).filter (fun k => ¬ acc.contains k))) []

/-- Dictionary access with NaN for a missing key, as `pd.DataFrame` fills
absent fields. -/
def lookupVal (o : List (String × Value)) (k : String) : Value :=
  match o.lookup k with
  | some v => v
  | none => .nan

/-- `pd.DataFrame(py_rows)` on a list of row dictionaries: the columns are
the union of the keys in first-seen order (empty when there are no rows),
and each row lists its values under those columns. -/
def dataFrameOfRecords (objs : List (List (String × Value))) : Frame :=
  { cols := unionKeys objs
    rows := objs.map (fun o => (unionKeys objs).map (lookupVal o)) }

/-- Modelled from the spec: the IRIS class method
`MockPackage.MockInference.DynamicSQL` is not under `src/` (only its Python
caller is).  The spec describes the three query functions as interchangeable
data-fetch adapters returning the appointment records filtered by minimum
age, so `DynamicSQL` is modelled as the `%ListOfObjects` of the matching
records.  IRIS lists are 1-indexed: `_Get 0` yields an empty slot, and
`_Get i` for `1 ≤ i ≤ _Size` yields the `i`-th result object. -/
def dynamicSQLGet (db : DB) (lower_age : Int) (i : Nat) : Option Record :=
  if i = 0 then none else (matchingRecords db lower_age).get? (i - 1)

/-- Size of the `DynamicSQL` result list (`rows._Size()`). -/
def dynamicSQLSize (db : DB) (lower_age : Int) : Nat :=
  (matchingRecords db lower_age).length

/-- Embedding of `dynamic_sql_query` (querymethods.py lines 5-18): iterate
`i` over `range(0, rows._Size() + 1)`, skip empty slots, turn every result
object into a Python dictionary via `%ToJSON()` + `json.loads`, and build
`pd.DataFrame(py_rows)`. -/
def dynamic_sql_query (db : DB) (lower_age : Int) : Frame :=
  let py_rows :=
    ((List.range (dynamicSQLSize db lower_age + 1)).filterMap
      (fun i => dynamicSQLGet db lower_age i)).map Record.toObj
  dataFrameOfRecords py_rows

/-- Embedding of `iris_sql_query` (querymethods.py lines 20-31): execute
`SELECT <the 15 columns> FROM MockPackage.NoShowsAppointments WHERE age >=
lower_age` and build `pd.DataFrame(list(stmt), columns=columns)`.  The SQL
engine is external; its SELECT/WHERE semantics over the table is embedded
directly. -/
def iris_sql_query (db : DB) (lower_age : Int) : Frame :=
  { cols := sqlColumns
    rows := (db.records.filter (fun r => lower_age ≤ r.age)).map Record.toRow }

/-- Python `>=` between a deserialized `$List` entry and the integer
`lower_age` (`python_list[idx_filter] >= lower_age`); the entry at the age
index is an integer in every stored row. -/
def valGe (v : Value) (lower_age : Int) : Bool :=
  match v with
  | .int n => lower_age ≤ n
  | _ => false

/-- Embedding of `iris_global_query` (querymethods.py lines 33-54): iterate
the subscripts of the global `^vCVc.Dvei.1` in order, deserialize each
stored `$List` with `%SYS.Python.ToList` into the positional row, keep the
rows whose entry at `columns.index("age")` is `>= lower_age`, and build
`pd.DataFrame(processed_data, columns=columns)`. -/
def iris_global_query (db : DB) (lower_age : Int) : Frame :=
  let columns := sqlColumns
  let idx_filter := (idxOf "age" columns).getD 0
  let processed_data :=
    (db.records.map Record.toRow).filter
      (fun python_list => valGe (python_list.getD idx_filter .nan) lower_age)
  { cols := columns, rows := processed_data }

/-! ### Frame operations used by `noshows_data_preprocessing` (utils.py) -/

/-- `df[src]` as a series: the values of column `src`, row by row
(NaN where a row is too short; never hit on well-formed frames). -/
def Frame.getCol (f : Frame) (src : String) : List Value :=
  match idxOf src f.cols with
  | some i => f.rows.map (fun row => row.getD i .nan)
  | none => []

/-- `df[c] = vs`: replace column `c` in place when it exists, else append it
on the right (pandas column assignment). -/
def Frame.setCol (f : Frame) (c : String) (vs : List Value) : Frame :=
  match idxOf c f.cols with
  | some i =>
    { cols := f.cols
      rows := (f.rows.zip vs).map (fun p => p.1.set i p.2) }
  | none =>
    { cols := f.cols ++ [c]
      rows := (f.rows.zip vs).map (fun p => p.1 ++ [p.2]) }

/-- `df.drop(columns=cs)`: remove the named columns (and the corresponding
entries of every row), keeping the order of the remaining ones. -/
def Frame.dropCols (f : Frame) (cs : List String) : Frame :=
  { cols := f.cols.filter (fun c => ¬ cs.contains c)
    rows := f.rows.map (fun row =>
      ((f.cols.zip row).filter (fun p => ¬ cs.contains p.1)).map Prod.snd) }

/-- `astype("category")` on a cell: tag a string as categorical. -/
def castCategory : Value → Value
  | .str s => .cat s
  | v => v

/-- `astype("datetime64[ns]")` on a cell.  String-to-timestamp parsing is
delegated to pandas; datetimes are modelled as already parsed, so the cast
is the identity on them. -/
def castDatetime : Value → Value
  | .dt d => .dt d
  | v => v

/-- The cast the `df.astype({...})` dictionary prescribes for the cell of a
named column: `gender` and `neighbourhood` to category, `scheduledday` and
`appointmentday` to datetime, anything else untouched. -/
def astypeCell (c : String) (v : Value) : Value :=
  if c = "gender" ∨ c = "neighbourhood" then castCategory v
  else if c = "scheduledday" ∨ c = "appointmentday" then castDatetime v
  else v

/-- The `df.astype({...})` call of `noshows_data_preprocessing`:
`gender` and `neighbourhood` to category, `scheduledday` and
`appointmentday` to datetime. -/
def Frame.astypeNoshows (f : Frame) : Frame :=
  { cols := f.cols
    rows := f.rows.map (fun row =>
      (f.cols.zip row).map (fun p => astypeCell p.1 p.2)) }

/-- `.dt.year` on a cell. -/
def dtYear : Value → Value
  | .dt d => .int d.year
  | _ => .nan

/-- `.dt.month` on a cell. -/
def dtMonth : Value → Value
  | .dt d => .int d.month
  | _ => .nan

/-- `.dt.day` on a cell. -/
def dtDay : Value → Value
  | .dt d => .int d.day
  | _ => .nan

/-- `.dt.dayofweek` on a cell (0 = Monday .. 6 = Sunday). -/
def dtDow : Value → Value
  | .dt d => .int d.dayofweek
  | _ => .nan

/-- `.dt.hour` on a cell. -/
def dtHour : Value → Value
  | .dt d => .int d.hour
  | _ => .nan

/-- `(dt.dayofweek >= 5).astype("int8")` on a cell. -/
def dtIsWeekend : Value → Value
  | .dt d => .int (if 5 ≤ d.dayofweek then 1 else 0)
  | _ => .nan

/-- `pd.cut(hour, bins=[-1, 6, 12, 17, 24], labels=[0, 1, 2, 3])` on one
hour value: bins are left-open, right-closed intervals, values outside all
bins become NaN. -/
def cutPartOfDay (h : Int) : Value :=
  if h ≤ -1 then .nan
  else if h ≤ 6 then .int 0
  else if h ≤ 12 then .int 1
  else if h ≤ 17 then .int 2
  else if h ≤ 24 then .int 3
  else .nan

/-- The part-of-day series function applied to a datetime cell. -/
def dtPartOfDay : Value → Value
  | .dt d => cutPartOfDay d.hour
  | _ => .nan

/-- One Python statement of `noshows_data_preprocessing` as it acts on the
frame bound to the local `df`: a rebinding `df = df.drop(columns=cs)`, the
rebinding `df = df.astype({...})`, or an in-place column assignment
`df[dst] = g(df[src])` for a series function `g` (dtYear, dtMonth, ...). -/
inductive Stmt where
  | drop (cs : List String)
  | astype
  | assign (dst src : String) (g : Value → Value)

/-- Semantics of one statement on the frame bound to `df`. -/
def Stmt.apply : Stmt → Frame → Frame
  | .drop cs, f => f.dropCols cs
  | .astype, f => f.astypeNoshows
  | .assign dst src g, f => f.setCol dst ((f.getCol src).map g)

/-- Whether the statement mutates the object bound to `df` in place (column
assignment) rather than rebinding `df` to a fresh object (`drop` and
`astype` return copies). -/
def Stmt.isMutation : Stmt → Bool
  | .assign _ _ _ => true
  | _ => false

/-- The seven derived-column assignments the `for col in date_cols` loop
performs for one date column. -/
def derivedStmts (col : String) : List Stmt :=
  [ .assign (col ++ "_year") col dtYear,
    .assign (col ++ "_month") col dtMonth,
    .assign (col ++ "_day") col dtDay,
    .assign (col ++ "_dow") col dtDow,
    .assign (col ++ "_hour") col dtHour,
    .assign (col ++ "_is_weekend") col dtIsWeekend,
    .assign (col ++ "_part_of_day") col dtPartOfDay ]

/-- The statements of `noshows_data_preprocessing` (utils.py lines 16-46)
up to the extraction of `y` and `X`: the two initial rebinds, the loop over
`date_cols = ["scheduledday", "appointmentday"]`, and the two final column
drops. -/
def noshowsStmts : List Stmt :=
  [ Stmt.drop ["appointmentid", "patientid"], Stmt.astype ]
  ++ derivedStmts "scheduledday"
  ++ derivedStmts "appointmentday"
  ++ [ Stmt.drop ["scheduledday", "appointmentday"],
       Stmt.drop ["gender", "neighbourhood"] ]

/-- The frame bound to `df` after a sequence of statements. -/
def applyStmts (sts : List Stmt) (df : Frame) : Frame :=
  sts.foldl (fun f st => st.apply f) df

/-- The frame bound to `df` after all statements of
`noshows_data_preprocessing`. -/
def runSteps (df : Frame) : Frame :=
  applyStmts noshowsStmts df

/-- Column-level effect of one statement (independent of the row values). -/
def Stmt.colsFun : Stmt → List String → List String
  | .drop cs, C => C.filter (fun c => ¬ cs.contains c)
  | .astype, C => C
  | .assign dst _ _, C =>
    match idxOf dst C with
    | some _ => C
    | none => C ++ [dst]

/-- Row-level effect of one statement, given the column list it runs under. -/
def Stmt.rowFun : Stmt → List String → List Value → List Value
  | .drop cs, C, row => ((C.zip row).filter (fun p => ¬ cs.contains p.1)).map Prod.snd
  | .astype, C, row => (C.zip row).map (fun p => astypeCell p.1 p.2)
  | .assign dst src g, C, row =>
    let v := g (row.getD ((idxOf src C).getD 0) .nan)
    match idxOf dst C with
    | some i => row.set i v
    | none => row ++ [v]

/-- Side condition under which `rowFun` is the exact row action of the
statement: an assignment reads an existing source column. -/
def Stmt.ok : Stmt → List String → Bool
  | .assign _ src _, C => (idxOf src C).isSome
  | _, _ => true

/-- Column list after a sequence of statements. -/
def stmtsCols : List Stmt → List String → List String
  | [], C => C
  | st :: sts, C => stmtsCols sts (st.colsFun C)

/-- Row after a sequence of statements run under an initial column list. -/
def stmtsRow : List Stmt → List String → List Value → List Value
  | [], _, row => row
  | st :: sts, C, row => stmtsRow sts (st.colsFun C) (st.rowFun C row)

/-- All side conditions along a sequence of statements. -/
def stmtsOk : List Stmt → List String → Bool
  | [], _ => true
  | st :: sts, C => st.ok C && stmtsOk sts (st.colsFun C)

/-- Embedding of `noshows_data_preprocessing` (utils.py lines 16-50):
run the statements, then `y = df["showed_up"]` and
`X = df.drop(columns=["showed_up"])`; returns `(X, y)`. -/
def noshows_data_preprocessing (df : Frame) : Frame × List Value :=
  let d := runSteps df
  (d.dropCols ["showed_up"], d.getCol "showed_up")

/-! ### Aliasing model for the frame-effect claim

Python call semantics for `noshows_data_preprocessing(df)`: the local `df`
initially aliases the caller's frame object.  A rebinding statement makes
`df` point at a fresh object; an in-place column assignment mutates the
object `df` currently points at — and therefore the caller's object exactly
when the two are still aliased. -/

/-- The caller's object, the object bound to the local `df`, and whether the
two are still the same object. -/
structure PyState where
  caller : Frame
  df : Frame
  aliased : Bool

/-- Effect of one statement on caller and local objects: an in-place
mutation hits the caller's object exactly while the two are aliased; a
rebinding breaks the alias. -/
def Stmt.applyState (st : Stmt) (s : PyState) : PyState :=
  if st.isMutation then
    { caller := if s.aliased then st.apply s.caller else s.caller
      df := st.apply s.df
      aliased := s.aliased }
  else
    { caller := s.caller, df := st.apply s.df, aliased := false }

/-- The state after all statements of `noshows_data_preprocessing`, starting
from the call where the local `df` aliases the caller's frame. -/
def runStepsState (df0 : Frame) : PyState :=
  noshowsStmts.foldl (fun s st => st.applyState s) ⟨df0, df0, true⟩

/-! ### Inference pipeline (utils.py) -/

/-- Modelled from the spec: `lgb.Booster(model_file=model_path)` loads a
pre-trained model file; LightGBM is external, so a booster is represented by
the path it was loaded from and its `predict` method is an uninterpreted
parameter of the theorems. -/
structure Booster where
  model_file : String
deriving DecidableEq, Repr

/-- Embedding of `load_lightgbm_model` (utils.py lines 52-54). -/
def load_lightgbm_model (model_path : String) : Booster :=
  { model_file := model_path }

/-- Embedding of `model_inference` (utils.py lines 56-58): one call of the
booster's `predict` method on the feature frame. -/
def model_inference {β : Type} (predict : Booster → Frame → β)
    (model : Booster) (X : Frame) : β :=
  predict model X

/-- Embedding of `measure_time_decorator` (utils.py lines 6-14).  The two
`time.time()` readings are modelled as rational timestamps `t0` (before the
call) and `t1` (after it) supplied by the wall clock; the wrapper returns
the wrapped function's result unchanged, paired with `t1 - t0`. -/
def measure_time_decorator {α β : Type} (func : α → β) :
    α → ℚ × ℚ → β × ℚ :=
  fun a t => (func a, t.2 - t.1)

/-- The body of `inference_pipeline` (utils.py lines 60-65) before the
decorator: load the model, preprocess (discarding `y`), predict. -/
def inference_pipeline_body {β : Type} (predict : Booster → Frame → β)
    (p : String × Frame) : β :=
  let model := load_lightgbm_model p.1
  let X := (noshows_data_preprocessing p.2).1
  model_inference predict model X

/-- Embedding of the decorated `inference_pipeline`: the decorator applied
to the body, taking `(model_path, df)` and the two clock readings. -/
def inference_pipeline {β : Type} (predict : Booster → Frame → β)
    (p : String × Frame) (t : ℚ × ℚ) : β × ℚ :=
  measure_time_decorator (inference_pipeline_body predict) p t

/-! ### State-passing model of the query functions

The external IRIS API calls performed by `querymethods.py` — `DynamicSQL`,
`iris.sql.prepare`/`.execute` of a SELECT statement, `gref` subscript
iteration and reads, and `%SYS.Python.ToList` — are reads: each is a
function of the database state returning a value and the unchanged state.
No write API occurs anywhere in the file, so a whole call of a query
function maps the state to its frame paired with the state it was given. -/

/-- `dynamic_sql_query` as a state transformer: its calls are all reads. -/
def dynamic_sql_query_state (db : DB) (lower_age : Int) : Frame × DB :=
  (dynamic_sql_query db lower_age, db)

/-- `iris_sql_query` as a state transformer: its calls are all reads. -/
def iris_sql_query_state (db : DB) (lower_age : Int) : Frame × DB :=
  (iris_sql_query db lower_age, db)

/-- `iris_global_query` as a state transformer: its calls are all reads. -/
def iris_global_query_state (db : DB) (lower_age : Int) : Frame × DB :=
  (iris_global_query db lower_age, db)

/-- A call of one of the three query functions with its argument. -/
inductive QueryCall where
  | dynamic (lower_age : Int)
  | sql (lower_age : Int)
  | global (lower_age : Int)

/-- Run one query call on the database state. -/
def runCall : QueryCall → DB → Frame × DB
  | .dynamic la, db => dynamic_sql_query_state db la
  | .sql la, db => iris_sql_query_state db la
  | .global la, db => iris_global_query_state db la

/-- Run a sequence of query calls, collecting the returned frames. -/
def runCalls : List QueryCall → DB → List Frame × DB
  | [], db => ([], db)
  | c :: cs, db =>
    let (f, db1) := runCall c db
    let (fs, db2) := runCalls cs db1
    (f :: fs, db2)

/-! ### Exception model

The Python functions contain no `try`/`except`: every fallible external
call is modelled as an `Except` value, and each function is the plain
monadic composition of its calls, so the first error returns unchanged to
the caller. -/

/-- `dynamic_sql_query` with its fallible externals explicit: the
`DynamicSQL` call itself, and the `%ToJSON()` + `json.loads` conversion of
each result object. -/
def dynamic_sql_query_exc {ε : Type} (dynCall : Except ε (List Record))
    (toJsonLoads : Record → Except ε (List (String × Value))) :
    Except ε Frame := do
  let resultSet ← dynCall
  let py_rows ← resultSet.mapM toJsonLoads
  pure (dataFrameOfRecords py_rows)

/-- `iris_sql_query` with its fallible external explicit: the
`iris.sql.prepare` + `.execute` of the SELECT, producing the matching rows. -/
def iris_sql_query_exc {ε : Type} (prepareExecute : Except ε (List Record)) :
    Except ε Frame := do
  let resultRows ← prepareExecute
  pure { cols := sqlColumns, rows := resultRows.map Record.toRow }

/-- `iris_global_query` with its fallible externals explicit: the global
subscript iteration, and the `%SYS.Python.ToList` deserialization of each
stored value. -/
def iris_global_query_exc {ε α : Type} (keysCall : Except ε (List α))
    (readToList : α → Except ε (List Value)) (lower_age : Int) :
    Except ε Frame := do
  let keys ← keysCall
  let rowLists ← keys.mapM readToList
  let idx := (idxOf "age" sqlColumns).getD 0
  pure { cols := sqlColumns
         rows := rowLists.filter (fun l => valGe (l.getD idx .nan) lower_age) }

/-- `measure_time_decorator` around a fallible function: the wrapper calls
`func` with no handler, so an error skips the timing and propagates. -/
def measure_time_decorator_exc {α β ε : Type} (func : α → Except ε β) :
    α → ℚ × ℚ → Except ε (β × ℚ) :=
  fun a t => do
    let r ← func a
    pure (r, t.2 - t.1)

/-- `inference_pipeline` with its fallible ML-library calls explicit:
loading the booster from the model file, and the `predict` call. -/
def inference_pipeline_exc {β ε : Type} (loadCall : String → Except ε Booster)
    (predictCall : Booster → Frame → Except ε β)
    (p : String × Frame) (t : ℚ × ℚ) : Except ε (β × ℚ) :=
  measure_time_decorator_exc
    (fun q : String × Frame => do
      let model ← loadCall q.1
      let X := (noshows_data_preprocessing q.2).1
      predictCall model X)
    p t

/-! ### Derived notions used in the theorem statements -/

/-- The tabular frame of a list of records: the 15 named columns with the
positional rows — the frame shape every query adapter produces and
`noshows_data_preprocessing` consumes. -/
def frameOfRecords (rs : List Record) : Frame :=
  { cols := sqlColumns, rows := rs.map Record.toRow }

/-- The column list of the frame bound to `df` after the statements of
`noshows_data_preprocessing` (before `showed_up` is split off). -/
def prepColumns : List String :=
  ["age", "scholarship", "hipertension", "diabetes", "alcoholism",
   "handcap", "sms_received", "showed_up", "date_diff",
   "scheduledday_year", "scheduledday_month", "scheduledday_day",
   "scheduledday_dow", "scheduledday_hour", "scheduledday_is_weekend",
   "scheduledday_part_of_day",
   "appointmentday_year", "appointmentday_month", "appointmentday_day",
   "appointmentday_dow", "appointmentday_hour", "appointmentday_is_weekend",
   "appointmentday_part_of_day"]

/-- The row a stored record contributes to the frame bound to `df` after
the statements of `noshows_data_preprocessing`. -/
def prepRow (r : Record) : List Value :=
  [.int r.age, .int r.scholarship, .int r.hipertension, .int r.diabetes,
   .int r.alcoholism, .int r.handcap, .int r.sms_received,
   .int r.showed_up, .int r.date_diff,
   .int r.scheduledday.year, .int r.scheduledday.month,
   .int r.scheduledday.day, .int r.scheduledday.dayofweek,
   .int r.scheduledday.hour,
   .int (if 5 ≤ r.scheduledday.dayofweek then 1 else 0),
   cutPartOfDay r.scheduledday.hour,
   .int r.appointmentday.year, .int r.appointmentday.month,
   .int r.appointmentday.day, .int r.appointmentday.dayofweek,
   .int r.appointmentday.hour,
   .int (if 5 ≤ r.appointmentday.dayofweek then 1 else 0),
   cutPartOfDay r.appointmentday.hour]

/-- The column list of the feature frame `X` returned by
`noshows_data_preprocessing`: the eight numeric columns kept from the
input plus the seven derived columns of each date column. -/
def featureColumns : List String :=
  ["age", "scholarship", "hipertension", "diabetes", "alcoholism",
   "handcap", "sms_received", "date_diff",
   "scheduledday_year", "scheduledday_month", "scheduledday_day",
   "scheduledday_dow", "scheduledday_hour", "scheduledday_is_weekend",
   "scheduledday_part_of_day",
   "appointmentday_year", "appointmentday_month", "appointmentday_day",
   "appointmentday_dow", "appointmentday_hour", "appointmentday_is_weekend",
   "appointmentday_part_of_day"]

/-- The row a stored record contributes to the feature frame `X`. -/
def xRowOf (r : Record) : List Value :=
  [.int r.age, .int r.scholarship, .int r.hipertension, .int r.diabetes,
   .int r.alcoholism, .int r.handcap, .int r.sms_received, .int r.date_diff,
   .int r.scheduledday.year, .int r.scheduledday.month,
   .int r.scheduledday.day, .int r.scheduledday.dayofweek,
   .int r.scheduledday.hour,
   .int (if 5 ≤ r.scheduledday.dayofweek then 1 else 0),
   cutPartOfDay r.scheduledday.hour,
   .int r.appointmentday.year, .int r.appointmentday.month,
   .int r.appointmentday.day, .int r.appointmentday.dayofweek,
   .int r.appointmentday.hour,
   .int (if 5 ≤ r.appointmentday.dayofweek then 1 else 0),
   cutPartOfDay r.appointmentday.hour]

/-- A cell of numeric dtype (an integer; categoricals, strings, datetimes
and NaN are not numeric). -/
def Value.isNumeric : Value → Bool
  | .int _ => true
  | _ => false

/-- Well-formed timestamp components, as pandas produces them: the day of
week lies in 0..6 and the hour in 0..23. -/
def DateTime.WF (d : DateTime) : Prop :=
  0 ≤ d.dayofweek ∧ d.dayofweek ≤ 6 ∧ 0 ≤ d.hour ∧ d.hour ≤ 23

/-- A record whose two timestamps are well-formed. -/
def Record.WF (r : Record) : Prop :=
  r.scheduledday.WF ∧ r.appointmentday.WF

instance (d : DateTime) : Decidable d.WF := by
  unfold DateTime.WF
  infer_instance

instance (r : Record) : Decidable r.WF := by
  unfold Record.WF
  infer_instance

/-- A concrete appointment record, used to instantiate the theorems. -/
def rec0 : Record :=
  { patientid := 29872499824296
    appointmentid := 5642903
    gender := "F"
    scheduledday := { year := 2016, month := 4, day := 29, dayofweek := 4, hour := 18 }
    appointmentday := { year := 2016, month := 4, day := 29, dayofweek := 4, hour := 0 }
    age := 62
    neighbourhood := "JARDIM DA PENHA"
    scholarship := 0
    hipertension := 1
    diabetes := 0
    alcoholism := 0
    handcap := 0
    sms_received := 0
    showed_up := 1
    date_diff := 0 }

/-- A concrete one-record database state. -/
def db0 : DB := { records := [rec0] }

/-- A concrete empty database state. -/
def dbEmpty : DB := { records := [] }

/-! ## Characterization lemmas for the query adapters -/

theorem filterMap_get_range {α : Type} (l : List α) :
    (List.range l.length).filterMap l.get? = l := by
  induction l with
  | nil => rfl
  | cons a l ih =>
    rw [List.length_cons, List.range_succ_eq_map]
    simp only [List.filterMap_cons, List.get?]
    rw [List.filterMap_map]
    simpa using ih

theorem filterMap_irisGet {α : Type} (l : List α) :
    (List.range (l.length + 1)).filterMap
      (fun i => if i = 0 then none else l.get? (i - 1)) = l := by
  rw [List.range_succ_eq_map, List.filterMap_cons]
  simp only [reduceIte]
  rw [List.filterMap_map]
  have hco : ((fun i => if i = 0 then none else l.get? (i - 1)) ∘ Nat.succ) = l.get? := by
    funext i
    simp
  rw [hco, filterMap_get_range]

theorem dynamic_sql_query_eq (db : DB) (lower_age : Int) :
    dynamic_sql_query db lower_age =
      dataFrameOfRecords ((matchingRecords db lower_age).map Record.toObj) := by
  unfold dynamic_sql_query dynamicSQLSize dynamicSQLGet
  rw [filterMap_irisGet]

theorem toObj_keys (r : Record) : (Record.toObj r).map Prod.fst = sqlColumns := rfl

theorem lookupVal_toObj (r : Record) :
    sqlColumns.map (lookupVal (Record.toObj r)) = Record.toRow r := rfl

theorem sqlColumns_filter_self :
    sqlColumns.filter (fun k => ¬ sqlColumns.contains k) = [] := by decide

theorem unionKeys_step (os : List (List (String × Value)))
    (h : ∀ o ∈ os, o.map Prod.fst = sqlColumns) :
    os.foldl (fun acc o =>
        acc ++ ((o.map Prod.fst).filter (fun k => ¬ acc.contains k)))
      sqlColumns = sqlColumns := by
  induction os with
  | nil => rfl
  | cons o os ih =>
    rw [List.foldl_cons, h o (List.mem_cons_self o os), sqlColumns_filter_self,
      List.append_nil]
    exact ih (fun x hx => h x (List.mem_cons_of_mem o hx))

theorem unionKeys_toObj (rs : List Record) (hne : rs ≠ []) :
    unionKeys (rs.map Record.toObj) = sqlColumns := by
  cases rs with
  | nil => exact absurd rfl hne
  | cons r rs =>
    unfold unionKeys
    rw [List.map_cons, List.foldl_cons]
    have h0 : (([] : List String) ++
        (((Record.toObj r).map Prod.fst).filter (fun k => ¬ ([] : List String).contains k)))
        = sqlColumns := by
      rw [List.nil_append, toObj_keys]
      simp [List.filter_eq_self]
    rw [h0]
    exact unionKeys_step (rs.map Record.toObj)
      (fun o ho => by
        obtain ⟨x, _, rfl⟩ := List.mem_map.mp ho
        exact toObj_keys x)

theorem dynamic_rows_eq (db : DB) (lower_age : Int) :
    (dynamic_sql_query db lower_age).rows =
      (matchingRecords db lower_age).map Record.toRow := by
  rw [dynamic_sql_query_eq]
  cases h : matchingRecords db lower_age with
  | nil => rfl
  | cons r rs =>
    show ((r :: rs).map Record.toObj).map
        (fun o => (unionKeys ((r :: rs).map Record.toObj)).map (lookupVal o)) = _
    rw [unionKeys_toObj _ (by simp)]
    rw [List.map_map]
    exact List.map_congr_left (fun x _ => lookupVal_toObj x)

theorem dynamic_cols_eq (db : DB) (lower_age : Int)
    (h : matchingRecords db lower_age ≠ []) :
    (dynamic_sql_query db lower_age).cols = sqlColumns := by
  rw [dynamic_sql_query_eq]
  show unionKeys _ = _
  exact unionKeys_toObj _ (by simpa using h)

theorem dynamic_empty_eq (db : DB) (lower_age : Int)
    (h : matchingRecords db lower_age = []) :
    dynamic_sql_query db lower_age = { cols := [], rows := [] } := by
  rw [dynamic_sql_query_eq, h]
  rfl

theorem iris_sql_rows_eq (db : DB) (lower_age : Int) :
    (iris_sql_query db lower_age).rows =
      (matchingRecords db lower_age).map Record.toRow := rfl

theorem iris_global_eq_sql (db : DB) (lower_age : Int) :
    iris_global_query db lower_age = iris_sql_query db lower_age := by
  unfold iris_global_query iris_sql_query
  refine congrArg (Frame.mk sqlColumns) ?_
  rw [List.filter_map]
  exact congrArg (List.map Record.toRow)
    (List.filter_congr (fun r _ => rfl))

/-! ## Characterization lemmas for the preprocessing pipeline -/

theorem apply_tab {α : Type} (st : Stmt) (C : List String) (l : List α)
    (t : α → List Value) (h : st.ok C = true) :
    st.apply { cols := C, rows := l.map t } =
      { cols := st.colsFun C, rows := l.map (fun x => st.rowFun C (t x)) } := by
  cases st with
  | drop cs =>
    simp [Stmt.apply, Frame.dropCols, Stmt.colsFun, Stmt.rowFun, List.map_map]
  | astype =>
    simp [Stmt.apply, Frame.astypeNoshows, Stmt.colsFun, Stmt.rowFun, List.map_map]
  | assign dst src g =>
    simp only [Stmt.ok, Option.isSome_iff_exists] at h
    obtain ⟨i, hi⟩ := h
    simp only [Stmt.apply, Frame.getCol, Frame.setCol, Stmt.colsFun, Stmt.rowFun, hi,
      List.map_map, Option.getD_some]
    cases hd : idxOf dst C with
    | some j =>
      refine congrArg (Frame.mk C) ?_
      simp only [Function.comp_def]
      rw [List.zip_map' t (fun x => g ((t x).getD i .nan)) l, List.map_map]
      exact List.map_congr_left (fun x _ => rfl)
    | none =>
      refine congrArg (Frame.mk (C ++ [dst])) ?_
      simp only [Function.comp_def]
      rw [List.zip_map' t (fun x => g ((t x).getD i .nan)) l, List.map_map]
      exact List.map_congr_left (fun x _ => rfl)

theorem applyStmts_tab {α : Type} (sts : List Stmt) :
    ∀ (C : List String) (l : List α) (t : α → List Value),
      stmtsOk sts C = true →
      applyStmts sts { cols := C, rows := l.map t } =
        { cols := stmtsCols sts C, rows := l.map (fun x => stmtsRow sts C (t x)) } := by
  induction sts with
  | nil => intro C l t _; rfl
  | cons st sts ih =>
    intro C l t h
    rw [stmtsOk, Bool.and_eq_true] at h
    show applyStmts sts (st.apply { cols := C, rows := l.map t }) = _
    rw [apply_tab st C l t h.1]
    exact ih (st.colsFun C) l (fun x => st.rowFun C (t x)) h.2

theorem stmtsRow_toRow (r : Record) :
    stmtsRow noshowsStmts sqlColumns (Record.toRow r) = prepRow r := by
  simp [noshowsStmts, derivedStmts, stmtsRow, Stmt.rowFun, Stmt.colsFun, idxOf,
    sqlColumns, Record.toRow, prepRow, astypeCell, castCategory, castDatetime,
    dtYear, dtMonth, dtDay, dtDow, dtHour, dtIsWeekend, dtPartOfDay]

theorem runSteps_frameOfRecords (rs : List Record) :
    runSteps (frameOfRecords rs) = { cols := prepColumns, rows := rs.map prepRow } := by
  rw [runSteps, frameOfRecords,
    applyStmts_tab noshowsStmts sqlColumns rs Record.toRow (by decide)]
  refine congrArg₂ Frame.mk (by decide) ?_
  exact List.map_congr_left (fun r _ => stmtsRow_toRow r)

theorem dropRow_prepRow (r : Record) :
    ((prepColumns.zip (prepRow r)).filter
      (fun p => ¬ (["showed_up"] : List String).contains p.1)).map Prod.snd
      = xRowOf r := by
  simp [prepColumns, prepRow, xRowOf]

theorem noshows_frameOfRecords (rs : List Record) :
    noshows_data_preprocessing (frameOfRecords rs) =
      ({ cols := featureColumns, rows := rs.map xRowOf },
       rs.map (fun r => Value.int r.showed_up)) := by
  unfold noshows_data_preprocessing
  rw [runSteps_frameOfRecords]
  refine congrArg₂ Prod.mk ?_ ?_
  · show Frame.dropCols _ _ = _
    rw [Frame.dropCols]
    have hc : prepColumns.filter
        (fun c => ¬ (["showed_up"] : List String).contains c) = featureColumns := by
      decide
    refine congrArg₂ Frame.mk hc ?_
    rw [List.map_map]
    exact List.map_congr_left (fun r _ => dropRow_prepRow r)
  · show Frame.getCol _ _ = _
    rw [Frame.getCol]
    have hidx : idxOf "showed_up" prepColumns = some 7 := by decide
    rw [hidx]
    simp only [List.map_map]
    exact List.map_congr_left (fun r _ => rfl)

/-! ## Helper lemmas for aliasing, membership and derived features -/

theorem applyState_of_not_aliased (st : Stmt) (s : PyState) (h : s.aliased = false) :
    st.applyState s =
      { caller := s.caller, df := st.apply s.df, aliased := false } := by
  unfold Stmt.applyState
  cases hm : st.isMutation with
  | true => simp [h]
  | false => simp

theorem foldl_applyState (sts : List Stmt) :
    ∀ s : PyState, s.aliased = false →
      sts.foldl (fun s st => st.applyState s) s =
        { caller := s.caller, df := applyStmts sts s.df, aliased := false } := by
  induction sts with
  | nil =>
    intro s h
    cases s with
    | mk c d a => cases h; rfl
  | cons st sts ih =>
    intro s h
    rw [List.foldl_cons, applyState_of_not_aliased st s h]
    rw [ih { caller := s.caller, df := st.apply s.df, aliased := false } rfl]
    rfl

theorem mem_matching_iff (db : DB) (lower_age : Int) (row : List Value) :
    row ∈ (matchingRecords db lower_age).map Record.toRow ↔
      ∃ r, r ∈ db.records ∧ lower_age ≤ r.age ∧ row = Record.toRow r := by
  rw [matchingRecords, List.mem_map]
  constructor
  · rintro ⟨r, hr, rfl⟩
    rw [List.mem_filter] at hr
    exact ⟨r, hr.1, by simpa using hr.2, rfl⟩
  · rintro ⟨r, hr, hage, rfl⟩
    exact ⟨r, List.mem_filter.mpr ⟨hr, by simpa using hage⟩, rfl⟩

theorem toRow_age (r : Record) :
    (Record.toRow r).getD ((idxOf "age" sqlColumns).getD 0) .nan = .int r.age := rfl

theorem cutPartOfDay_int (h : Int) (h0 : 0 ≤ h) (h23 : h ≤ 23) :
    ∃ m : Int, cutPartOfDay h = .int m := by
  unfold cutPartOfDay
  split_ifs <;> first | (exact ⟨_, rfl⟩) | omega

/-! ## Claim theorems -/

/-- C1, counterexample to the claim as stated: on the empty database state
(a fixed, consistent state exposing the same — zero — appointment records
through all three access paths) `dynamic_sql_query` and `iris_sql_query` do
not return the same frame for `lower_age = 0`: the former has zero columns,
the latter the 15 named ones. -/
theorem claim_C1_counterexample :
    ¬ (dynamic_sql_query dbEmpty 0 = iris_sql_query dbEmpty 0 ∧
       iris_global_query dbEmpty 0 = iris_sql_query dbEmpty 0) := by
  decide

/-- C1 (amended): for every `lower_age` and consistent database state the
three query functions return the same rows in the same order, and
`iris_sql_query` and `iris_global_query` always agree on the whole frame
with the 15 columns in the fixed order; `dynamic_sql_query` returns the very
same frame whenever at least one record matches, while with zero matching
records its frame has zero columns. -/
theorem claim_C1_adapters_agree (db : DB) (lower_age : Int) :
    (dynamic_sql_query db lower_age).rows = (iris_sql_query db lower_age).rows ∧
    iris_global_query db lower_age = iris_sql_query db lower_age ∧
    (iris_sql_query db lower_age).cols = sqlColumns ∧
    (matchingRecords db lower_age ≠ [] →
      dynamic_sql_query db lower_age = iris_sql_query db lower_age) ∧
    (matchingRecords db lower_age = [] →
      (dynamic_sql_query db lower_age).cols = []) := by
  refine ⟨?_, iris_global_eq_sql db lower_age, rfl, ?_, ?_⟩
  · rw [dynamic_rows_eq]
    rfl
  · intro h
    have hc := dynamic_cols_eq db lower_age h
    have hr := dynamic_rows_eq db lower_age
    show dynamic_sql_query db lower_age = _
    calc dynamic_sql_query db lower_age
        = { cols := (dynamic_sql_query db lower_age).cols
            rows := (dynamic_sql_query db lower_age).rows } := rfl
      _ = { cols := sqlColumns, rows := (matchingRecords db lower_age).map Record.toRow } := by
          rw [hc, hr]
      _ = iris_sql_query db lower_age := rfl
  · intro h
    rw [dynamic_empty_eq db lower_age h]

/-- C1, witness: on the one-record state with `lower_age = 18` the record
matches and all three adapters return the identical frame. -/
theorem claim_C1_witness :
    matchingRecords db0 18 ≠ [] ∧
    dynamic_sql_query db0 18 = iris_sql_query db0 18 ∧
    iris_global_query db0 18 = iris_sql_query db0 18 := by
  have h := claim_C1_adapters_agree db0 18
  exact ⟨by decide, h.2.2.2.1 (by decide), h.2.1⟩

/-- C2: for each of the three query functions, every returned row is the
row of a stored record whose age is at least `lower_age` (in particular the
cell at the age column is an integer `≥ lower_age`), and every stored record
with age at least `lower_age` contributes its row to the result (the filter
is by inclusive minimum age). -/
theorem claim_C2_min_age_filter (db : DB) (lower_age : Int) :
    ((∀ row ∈ (dynamic_sql_query db lower_age).rows,
        ∃ r, r ∈ db.records ∧ lower_age ≤ r.age ∧ row = Record.toRow r) ∧
     (∀ r ∈ db.records, lower_age ≤ r.age →
        Record.toRow r ∈ (dynamic_sql_query db lower_age).rows)) ∧
    ((∀ row ∈ (iris_sql_query db lower_age).rows,
        ∃ r, r ∈ db.records ∧ lower_age ≤ r.age ∧ row = Record.toRow r) ∧
     (∀ r ∈ db.records, lower_age ≤ r.age →
        Record.toRow r ∈ (iris_sql_query db lower_age).rows)) ∧
    ((∀ row ∈ (iris_global_query db lower_age).rows,
        ∃ r, r ∈ db.records ∧ lower_age ≤ r.age ∧ row = Record.toRow r) ∧
     (∀ r ∈ db.records, lower_age ≤ r.age →
        Record.toRow r ∈ (iris_global_query db lower_age).rows)) ∧
    (∀ row ∈ (iris_sql_query db lower_age).rows,
       ∃ a : Int, row.getD ((idxOf "age" sqlColumns).getD 0) .nan = .int a ∧
         lower_age ≤ a) := by
  have hdyn : (dynamic_sql_query db lower_age).rows =
      (matchingRecords db lower_age).map Record.toRow := dynamic_rows_eq db lower_age
  have hsql : (iris_sql_query db lower_age).rows =
      (matchingRecords db lower_age).map Record.toRow := rfl
  have hglob : (iris_global_query db lower_age).rows =
      (matchingRecords db lower_age).map Record.toRow := by
    rw [iris_global_eq_sql]
    exact hsql
  have sound : ∀ row ∈ (matchingRecords db lower_age).map Record.toRow,
      ∃ r, r ∈ db.records ∧ lower_age ≤ r.age ∧ row = Record.toRow r :=
    fun row hrow => (mem_matching_iff db lower_age row).mp hrow
  have comp : ∀ r ∈ db.records, lower_age ≤ r.age →
      Record.toRow r ∈ (matchingRecords db lower_age).map Record.toRow :=
    fun r hr hage => (mem_matching_iff db lower_age _).mpr ⟨r, hr, hage, rfl⟩
  refine ⟨⟨?_, ?_⟩, ⟨?_, ?_⟩, ⟨?_, ?_⟩, ?_⟩
  · rw [hdyn]; exact sound
  · intro r hr hage; rw [hdyn]; exact comp r hr hage
  · rw [hsql]; exact sound
  · intro r hr hage; rw [hsql]; exact comp r hr hage
  · rw [hglob]; exact sound
  · intro r hr hage; rw [hglob]; exact comp r hr hage
  · intro row hrow
    rw [hsql] at hrow
    obtain ⟨r, _, hage, rfl⟩ := sound row hrow
    exact ⟨r.age, toRow_age r, hage⟩

/-- C2, witness: on the one-record state with `lower_age = 30` the stored
record (age 62) appears in each of the three results. -/
theorem claim_C2_witness :
    Record.toRow rec0 ∈ (dynamic_sql_query db0 30).rows ∧
    Record.toRow rec0 ∈ (iris_sql_query db0 30).rows ∧
    Record.toRow rec0 ∈ (iris_global_query db0 30).rows := by
  have h := claim_C2_min_age_filter db0 30
  have hmem : rec0 ∈ db0.records := by decide
  have hage : (30 : Int) ≤ rec0.age := by decide
  exact ⟨h.1.2 rec0 hmem hage, h.2.1.2 rec0 hmem hage, h.2.2.1.2 rec0 hmem hage⟩

/-- C9: when no stored record matches the minimum-age filter,
`iris_sql_query` and `iris_global_query` return the empty frame with the 15
named columns in the fixed order, while `dynamic_sql_query` returns an empty
frame with zero columns (the columns of `pd.DataFrame` on an empty list of
row dictionaries). -/
theorem claim_C9_empty_result (db : DB) (lower_age : Int)
    (h : matchingRecords db lower_age = []) :
    iris_sql_query db lower_age = { cols := sqlColumns, rows := [] } ∧
    iris_global_query db lower_age = { cols := sqlColumns, rows := [] } ∧
    dynamic_sql_query db lower_age = { cols := [], rows := [] } := by
  have hsql : iris_sql_query db lower_age = { cols := sqlColumns, rows := [] } := by
    unfold iris_sql_query
    rw [show db.records.filter (fun r => lower_age ≤ r.age) = [] from h]
    rfl
  exact ⟨hsql, by rw [iris_global_eq_sql]; exact hsql, dynamic_empty_eq db lower_age h⟩

/-- C9, witness: on the one-record state (age 62) with `lower_age = 100`
nothing matches and the three empty frames have the stated columns. -/
theorem claim_C9_witness :
    matchingRecords db0 100 = [] ∧
    iris_sql_query db0 100 = { cols := sqlColumns, rows := [] } ∧
    iris_global_query db0 100 = { cols := sqlColumns, rows := [] } ∧
    dynamic_sql_query db0 100 = { cols := [], rows := [] } := by
  have h := claim_C9_empty_result db0 100 (by decide)
  exact ⟨by decide, h.1, h.2.1, h.2.2⟩

/-- C3: on a tabular frame of records (the 15 expected columns with their
positional rows), `noshows_data_preprocessing` returns `(X, y)` where `y` is
the input's `showed_up` column, `X`'s columns are exactly the eight retained
numeric columns plus the seven derived columns of each date column, and none
of `appointmentid`, `patientid`, `gender`, `neighbourhood`, `scheduledday`,
`appointmentday`, `showed_up` appears in `X`. -/
theorem claim_C3_output_columns (rs : List Record) :
    (noshows_data_preprocessing (frameOfRecords rs)).1.cols = featureColumns ∧
    (noshows_data_preprocessing (frameOfRecords rs)).2 =
      (frameOfRecords rs).getCol "showed_up" ∧
    (noshows_data_preprocessing (frameOfRecords rs)).2 =
      rs.map (fun r => Value.int r.showed_up) ∧
    (∀ c ∈ (["appointmentid", "patientid", "gender", "neighbourhood",
             "scheduledday", "appointmentday", "showed_up"] : List String),
       ¬ (noshows_data_preprocessing (frameOfRecords rs)).1.cols.contains c) := by
  have h := noshows_frameOfRecords rs
  have hy : (noshows_data_preprocessing (frameOfRecords rs)).2 =
      rs.map (fun r => Value.int r.showed_up) := by rw [h]
  refine ⟨by rw [h], ?_, hy, ?_⟩
  · rw [hy]
    show _ = Frame.getCol { cols := sqlColumns, rows := rs.map Record.toRow } "showed_up"
    rw [Frame.getCol]
    have hidx : idxOf "showed_up" sqlColumns = some 13 := by decide
    rw [hidx]
    show _ = (rs.map Record.toRow).map (fun row => row.getD 13 .nan)
    rw [List.map_map]
    exact List.map_congr_left (fun r _ => rfl)
  · intro c hc
    rw [h]
    show ¬ featureColumns.contains c = true
    simp only [List.mem_cons, List.not_mem_nil, or_false] at hc
    rcases hc with rfl | rfl | rfl | rfl | rfl | rfl | rfl <;> decide

/-- C3, witness: the concrete one-record frame evaluates to the stated
columns and `y`. -/
theorem claim_C3_witness :
    (noshows_data_preprocessing (frameOfRecords [rec0])).1.cols = featureColumns ∧
    (noshows_data_preprocessing (frameOfRecords [rec0])).2 = [Value.int 1] := by
  have h := claim_C3_output_columns [rec0]
  exact ⟨h.1, by rw [h.2.2.1]; decide⟩

/-- C4: on a tabular frame of well-formed records, every cell of the feature
frame `X` returned by `noshows_data_preprocessing` is numeric (an integer:
the categorical columns `gender` and `neighbourhood` are absent from `X`). -/
theorem claim_C4_numeric_features (rs : List Record) (h : ∀ r ∈ rs, r.WF) :
    ∀ row ∈ (noshows_data_preprocessing (frameOfRecords rs)).1.rows,
      ∀ v ∈ row, v.isNumeric = true := by
  rw [noshows_frameOfRecords]
  intro row hrow v hv
  obtain ⟨r, hr, rfl⟩ := List.mem_map.mp hrow
  have hwf := h r hr
  have hsd := cutPartOfDay_int r.scheduledday.hour hwf.1.2.2.1 hwf.1.2.2.2
  have had := cutPartOfDay_int r.appointmentday.hour hwf.2.2.2.1 hwf.2.2.2.2
  obtain ⟨msd, hmsd⟩ := hsd
  obtain ⟨mad, hmad⟩ := had
  simp only [xRowOf, List.mem_cons, List.not_mem_nil, or_false] at hv
  rcases hv with rfl | rfl | rfl | rfl | rfl | rfl | rfl | rfl | rfl | rfl |
    rfl | rfl | rfl | rfl | rfl | rfl | rfl | rfl | rfl | rfl | rfl | rfl <;>
    first
      | rfl
      | (rw [hmsd]; rfl)
      | (rw [hmad]; rfl)

/-- C4, witness: the concrete one-record frame is well-formed and its
feature row is all-numeric. -/
theorem claim_C4_witness :
    (∀ r ∈ [rec0], r.WF) ∧
    ∀ row ∈ (noshows_data_preprocessing (frameOfRecords [rec0])).1.rows,
      ∀ v ∈ row, v.isNumeric = true := by
  refine ⟨by decide, claim_C4_numeric_features [rec0] (by decide)⟩

/-- C10: for a well-formed timestamp, the derived weekend feature is 1
exactly when the day of week is Saturday or Sunday (`dayofweek ∈ {5, 6}`)
and 0 otherwise, and the part-of-day feature maps the hour `h` to 0 (night)
for `0 ≤ h ≤ 6`, 1 (morning) for `7 ≤ h ≤ 12`, 2 (afternoon) for
`13 ≤ h ≤ 17`, and 3 (evening) for `18 ≤ h ≤ 23`. -/
theorem claim_C10_derived_features (d : DateTime) (h : d.WF) :
    (dtIsWeekend (.dt d) = .int 1 ↔ (d.dayofweek = 5 ∨ d.dayofweek = 6)) ∧
    (dtIsWeekend (.dt d) = .int 0 ↔ ¬ (d.dayofweek = 5 ∨ d.dayofweek = 6)) ∧
    dtPartOfDay (.dt d) = cutPartOfDay d.hour ∧
    (d.hour ≤ 6 → cutPartOfDay d.hour = .int 0) ∧
    (7 ≤ d.hour → d.hour ≤ 12 → cutPartOfDay d.hour = .int 1) ∧
    (13 ≤ d.hour → d.hour ≤ 17 → cutPartOfDay d.hour = .int 2) ∧
    (18 ≤ d.hour → cutPartOfDay d.hour = .int 3) := by
  obtain ⟨hd0, hd6, hh0, hh23⟩ := h
  refine ⟨?_, ?_, rfl, ?_, ?_, ?_, ?_⟩
  · show Value.int (if 5 ≤ d.dayofweek then 1 else 0) = Value.int 1 ↔ _
    split_ifs with hw <;> simp <;> omega
  · show Value.int (if 5 ≤ d.dayofweek then 1 else 0) = Value.int 0 ↔ _
    split_ifs with hw <;> simp <;> omega
  · intro h6
    unfold cutPartOfDay
    split_ifs <;> first | rfl | omega
  · intro h7 h12
    unfold cutPartOfDay
    split_ifs <;> first | rfl | omega
  · intro h13 h17
    unfold cutPartOfDay
    split_ifs <;> first | rfl | omega
  · intro h18
    unfold cutPartOfDay
    split_ifs <;> first | rfl | omega

/-- C10, witness: the concrete scheduled-day timestamp (Friday, 18:00) is
well-formed, is not a weekend, and falls in the evening bin. -/
theorem claim_C10_witness :
    rec0.scheduledday.WF ∧
    dtIsWeekend (.dt rec0.scheduledday) = .int 0 ∧
    cutPartOfDay rec0.scheduledday.hour = .int 3 := by
  have h := claim_C10_derived_features rec0.scheduledday (by decide)
  exact ⟨by decide, h.2.1.mpr (by decide), h.2.2.2.2.2.2 (by decide)⟩

/-- C8: `noshows_data_preprocessing` leaves its argument unchanged.  In the
aliasing model of the Python statements — the local `df` starts out aliasing
the caller's frame, rebindings (`drop`, `astype`) break the alias, in-place
column assignments mutate the object currently bound — the caller's frame
after all statements equals the frame passed in, because the very first
statement rebinds `df` to the copy `df.drop(columns=[...])`; moreover the
locally visible frame is the one the pure pipeline computes. -/
theorem run_cons_not_mutation (st : Stmt) (sts : List Stmt) (df0 : Frame)
    (h : st.isMutation = false) :
    (st :: sts).foldl (fun s stm => stm.applyState s) ⟨df0, df0, true⟩ =
      ⟨df0, applyStmts (st :: sts) df0, false⟩ := by
  rw [List.foldl_cons]
  have h0 : st.applyState ⟨df0, df0, true⟩ = ⟨df0, st.apply df0, false⟩ := by
    unfold Stmt.applyState
    rw [h]
    simp
  rw [h0, foldl_applyState sts _ rfl]
  rfl

theorem claim_C8_argument_unchanged (df0 : Frame) :
    (runStepsState df0).caller = df0 ∧ (runStepsState df0).df = runSteps df0 := by
  have hlist : noshowsStmts =
      Stmt.drop ["appointmentid", "patientid"] :: noshowsStmts.tail := rfl
  unfold runStepsState runSteps
  rw [hlist, run_cons_not_mutation (Stmt.drop ["appointmentid", "patientid"])
    noshowsStmts.tail df0 rfl]
  exact ⟨rfl, rfl⟩

/-- C8, witness: on the concrete one-record frame the caller's object is
untouched. -/
theorem claim_C8_witness :
    (runStepsState (frameOfRecords [rec0])).caller = frameOfRecords [rec0] :=
  (claim_C8_argument_unchanged (frameOfRecords [rec0])).1

/-- C5: for every model path and input frame, `inference_pipeline` returns
the pair of `model_inference` applied to the loaded booster and the
preprocessed features (one `predict` call, `y` discarded), together with the
clock difference added by the timing decorator — which never alters the
wrapped function's result and is non-negative whenever the second clock
reading is not earlier than the first. -/
theorem claim_C5_pipeline_result {β : Type} (predict : Booster → Frame → β)
    (model_path : String) (df : Frame) (t0 t1 : ℚ) :
    (inference_pipeline predict (model_path, df) (t0, t1)).1 =
      model_inference predict (load_lightgbm_model model_path)
        (noshows_data_preprocessing df).1 ∧
    (∀ (α γ : Type) (func : α → γ) (a : α),
       (measure_time_decorator func a (t0, t1)).1 = func a) ∧
    (t0 ≤ t1 → 0 ≤ (inference_pipeline predict (model_path, df) (t0, t1)).2) := by
  refine ⟨rfl, fun α γ func a => rfl, fun h => ?_⟩
  show (0 : ℚ) ≤ t1 - t0
  exact sub_nonneg.mpr h

/-- C5, witness: a concrete instantiation with a trivial predictor and the
clock readings 0 and 1. -/
theorem claim_C5_witness :
    (inference_pipeline (fun _ _ => (0 : Int)) ("model.txt", frameOfRecords [rec0])
        ((0 : ℚ), (1 : ℚ))).1 =
      model_inference (fun _ _ => (0 : Int)) (load_lightgbm_model "model.txt")
        (noshows_data_preprocessing (frameOfRecords [rec0])).1 ∧
    (0 : ℚ) ≤ (inference_pipeline (fun _ _ => (0 : Int))
        ("model.txt", frameOfRecords [rec0]) ((0 : ℚ), (1 : ℚ))).2 := by
  have h := claim_C5_pipeline_result (fun _ _ => (0 : Int))
    "model.txt" (frameOfRecords [rec0]) 0 1
  exact ⟨h.1, h.2.2 (by norm_num)⟩

/-- C6: the query functions are stateless and deterministic: every sequence
of calls of the three functions leaves the database state unchanged, a call
after any earlier calls returns the same frame as the same call on the fresh
state, and two successive identical calls return equal frames. -/
theorem claim_C6_stateless (db : DB) (cs : List QueryCall) (c : QueryCall) :
    (runCalls cs db).2 = db ∧
    (runCall c ((runCalls cs db).2)).1 = (runCall c db).1 ∧
    runCalls [c, c] db = ([(runCall c db).1, (runCall c db).1], db) := by
  have hsnd : ∀ (q : QueryCall) (d : DB), (runCall q d).2 = d := by
    intro q d
    cases q <;> rfl
  have hstate : ∀ (qs : List QueryCall) (d : DB), (runCalls qs d).2 = d := by
    intro qs
    induction qs with
    | nil => intro d; rfl
    | cons q qs ih =>
      intro d
      show (runCalls qs (runCall q d).2).2 = d
      rw [hsnd q d]
      exact ih d
  refine ⟨hstate cs db, by rw [hstate cs db], ?_⟩
  show ((runCall c db).1 :: (runCalls [c] (runCall c db).2).1,
        (runCalls [c] (runCall c db).2).2) = _
  rw [hsnd c db]
  show ((runCall c db).1 :: (runCall c db).1 :: (runCalls [] (runCall c db).2).1,
        (runCalls [] (runCall c db).2).2) = _
  rw [hsnd c db]
  rfl

/-- C7: no function contains failure-recovery logic: an error raised by the
database driver (`DynamicSQL`, the SQL prepare/execute, the global reads),
the JSON decoder (the per-row `%ToJSON()` + `json.loads`), or the ML library
(booster loading, `predict`) propagates unchanged to the caller of the
query functions and of the (decorator-wrapped) inference pipeline; the
timing decorator itself maps the wrapped function's outcome without
catching or replacing anything. -/
theorem claim_C7_errors_propagate {ε β γ : Type} (e : ε)
    (toJsonLoads : Record → Except ε (List (String × Value)))
    (resultSet : List Record)
    (keys : List γ) (readToList : γ → Except ε (List Value)) (lower_age : Int)
    (loadCall : String → Except ε Booster)
    (predictCall : Booster → Frame → Except ε β)
    (p : String × Frame) (t : ℚ × ℚ)
    (func : String × Frame → Except ε β) :
    dynamic_sql_query_exc (.error e) toJsonLoads = .error e ∧
    (resultSet.mapM toJsonLoads = .error e →
      dynamic_sql_query_exc (.ok resultSet) toJsonLoads = .error e) ∧
    iris_sql_query_exc (ε := ε) (.error e) = .error e ∧
    iris_global_query_exc (.error e) readToList lower_age = .error e ∧
    (keys.mapM readToList = .error e →
      iris_global_query_exc (.ok keys) readToList lower_age = .error e) ∧
    measure_time_decorator_exc func p t =
      (func p).map (fun r => (r, t.2 - t.1)) ∧
    (loadCall p.1 = .error e →
      inference_pipeline_exc loadCall predictCall p t = .error e) ∧
    (∀ m, loadCall p.1 = .ok m →
      predictCall m (noshows_data_preprocessing p.2).1 = .error e →
      inference_pipeline_exc loadCall predictCall p t = .error e) := by
  refine ⟨rfl, ?_, rfl, rfl, ?_, ?_, ?_, ?_⟩
  · intro h
    show _ <$> resultSet.mapM toJsonLoads = Except.error e
    rw [h]
    rfl
  · intro h
    show _ <$> keys.mapM readToList = Except.error e
    rw [h]
    rfl
  · cases h : func p <;> simp [measure_time_decorator_exc, Except.map, h]
  · intro h
    unfold inference_pipeline_exc measure_time_decorator_exc
    beta_reduce
    rw [h]
    rfl
  · intro m hm hp
    unfold inference_pipeline_exc measure_time_decorator_exc
    beta_reduce
    rw [hm]
    show (do
        let r ← predictCall m (noshows_data_preprocessing p.2).1
        pure (r, t.2 - t.1)) = (Except.error e : Except ε (β × ℚ))
    rw [hp]
    rfl

/-- C7, witness: concrete failing externals — the error value is returned
unchanged by every function. -/
theorem claim_C7_witness :
    dynamic_sql_query_exc (ε := String) (.error "db down")
        (fun _ => .ok []) = .error "db down" ∧
    dynamic_sql_query_exc (ε := String) (.ok [rec0])
        (fun _ => .error "bad json") = .error "bad json" ∧
    iris_global_query_exc (α := Record) (ε := String) (.ok [rec0])
        (fun _ => .error "bad list") 0 = .error "bad list" ∧
    inference_pipeline_exc (β := Int) (fun _ => .error "no model file")
        (fun _ _ => .ok 0) ("model.txt", frameOfRecords [rec0]) (0, 1)
      = .error "no model file" := by
  have h := claim_C7_errors_propagate (β := Int) (γ := Record) "db down"
    (fun _ => .ok []) [rec0] [rec0] (fun _ => .error "bad list") 0
    (fun _ => .error "no model file") (fun _ _ => .ok 0)
    ("model.txt", frameOfRecords [rec0]) (0, 1) (fun _ => .ok 0)
  have h2 := claim_C7_errors_propagate (β := Int) (γ := Record) "bad json"
    (fun _ => .error "bad json") [rec0] [rec0] (fun _ => .ok []) 0
    (fun _ => .ok (load_lightgbm_model "x")) (fun _ _ => .ok 0)
    ("model.txt", frameOfRecords [rec0]) (0, 1) (fun _ => .ok 0)
  have h3 := claim_C7_errors_propagate (β := Int) (γ := Record) "bad list"
    (fun _ => .ok []) [rec0] [rec0] (fun _ => .error "bad list") 0
    (fun _ => .ok (load_lightgbm_model "x")) (fun _ _ => .ok 0)
    ("model.txt", frameOfRecords [rec0]) (0, 1) (fun _ => .ok 0)
  have h4 := claim_C7_errors_propagate (β := Int) (γ := Record) "no model file"
    (fun _ => .ok []) [rec0] [rec0] (fun _ => .ok []) 0
    (fun _ => .error "no model file") (fun _ _ => .ok 0)
    ("model.txt", frameOfRecords [rec0]) (0, 1) (fun _ => .ok 0)
  refine ⟨h.1, h2.2.1 rfl, h3.2.2.2.2.1 rfl, h4.2.2.2.2.2.2.1 rfl⟩

end IrisDocker


